import Mathlib

/-!
Verification of the UPNP/SSDP discovery responder in
`homeassistant/components/emulated_hue/upnp.py` (class `UPNPResponderThread`).

Shallow embedding: bytes and unicode code points are `Nat`, byte strings are
`List Nat`, the responder's receive loop is a function over a list of
per-iteration observations (value of the `_interrupted` flag at each read,
and the outcome of the bounded `select`/`recvfrom`).
-/

set_option maxRecDepth 100000

namespace EmulatedHueUpnp

/-- A UTF-8 continuation byte (0x80..0xBF). -/
def isCont (b : Nat) : Bool := 128 ≤ b && b < 192

/-- Worker for `utf8DecodeIgnore`. Every recursive call consumes at least one
byte, so fuel equal to the input length is enough; fuel-based recursion keeps
the definition structural (hence definitionally reducible). -/
def utf8DecodeIgnoreAux : Nat → List Nat → List Nat
  | 0, _ => []
  | _, [] => []
  | fuel + 1, b :: rest =>
    if b < 128 then
      b :: utf8DecodeIgnoreAux fuel rest
    else if b < 194 then
      -- invalid start byte (continuation byte or overlong C0/C1): skip it
      utf8DecodeIgnoreAux fuel rest
    else if b < 224 then
      -- two-byte sequence C2..DF
      match rest with
      | [] => []
      | c1 :: rest2 =>
        if isCont c1 then
          ((b - 192) * 64 + (c1 - 128)) :: utf8DecodeIgnoreAux fuel rest2
        else
          utf8DecodeIgnoreAux fuel rest
    else if b < 240 then
      -- three-byte sequence E0..EF; E0 excludes overlongs, ED excludes surrogates
      match rest with
      | [] => []
      | c1 :: rest2 =>
        if (if b = 224 then 160 ≤ c1 && c1 < 192
            else if b = 237 then 128 ≤ c1 && c1 < 160
            else isCont c1) then
          match rest2 with
          | [] => []
          | c2 :: rest3 =>
            if isCont c2 then
              ((b - 224) * 4096 + (c1 - 128) * 64 + (c2 - 128)) :: utf8DecodeIgnoreAux fuel rest3
            else
              utf8DecodeIgnoreAux fuel rest2
        else
          utf8DecodeIgnoreAux fuel rest
    else if b < 245 then
      -- four-byte sequence F0..F4; F0 excludes overlongs, F4 caps at U+10FFFF
      match rest with
      | [] => []
      | c1 :: rest2 =>
        if (if b = 240 then 144 ≤ c1 && c1 < 192
            else if b = 244 then 128 ≤ c1 && c1 < 144
            else isCont c1) then
          match rest2 with
          | [] => []
          | c2 :: rest3 =>
            if isCont c2 then
              match rest3 with
              | [] => []
              | c3 :: rest4 =>
                if isCont c3 then
                  ((b - 240) * 262144 + (c1 - 128) * 4096 + (c2 - 128) * 64 + (c3 - 128)) ::
                    utf8DecodeIgnoreAux fuel rest4
                else
                  utf8DecodeIgnoreAux fuel rest3
          else
            utf8DecodeIgnoreAux fuel rest2
        else
          utf8DecodeIgnoreAux fuel rest
    else
      -- invalid start byte F5..FF: skip it
      utf8DecodeIgnoreAux fuel rest

/-- Python `bytes.decode('utf-8', errors='ignore')`: strict UTF-8 decoding
(rejecting overlongs, surrogates and code points above U+10FFFF) where each
maximal ill-formed subsequence is skipped instead of raising. Input is the
byte sequence, output the sequence of decoded code points. -/
def utf8DecodeIgnore (l : List Nat) : List Nat := utf8DecodeIgnoreAux l.length l

/-- First continuation byte admissible after a three-byte lead. -/
def cont1ok3 (b c1 : Nat) : Bool :=
  if b = 224 then 160 ≤ c1 && c1 < 192
  else if b = 237 then 128 ≤ c1 && c1 < 160
  else isCont c1

/-- First continuation byte admissible after a four-byte lead. -/
def cont1ok4 (b c1 : Nat) : Bool :=
  if b = 240 then 144 ≤ c1 && c1 < 192
  else if b = 244 then 128 ≤ c1 && c1 < 144
  else isCont c1

/-- Strict UTF-8 validity of a byte sequence (Python: `bytes.decode('utf-8')`
succeeds without error). -/
def isValidUtf8 : List Nat → Bool
  | [] => true
  | b :: rest =>
    if b < 128 then isValidUtf8 rest
    else if 194 ≤ b && b < 224 then
      match rest with
      | c1 :: rest2 => isCont c1 && isValidUtf8 rest2
      | [] => false
    else if 224 ≤ b && b < 240 then
      match rest with
      | c1 :: c2 :: rest3 => cont1ok3 b c1 && isCont c2 && isValidUtf8 rest3
      | _ => false
    else if 240 ≤ b && b < 245 then
      match rest with
      | c1 :: c2 :: c3 :: rest4 => cont1ok4 b c1 && isCont c2 && isCont c3 && isValidUtf8 rest4
      | _ => false
    else false

/-- Code points of the query marker string "M-SEARCH". -/
def msearchCodes : List Nat := [77, 45, 83, 69, 65, 82, 67, 72]

/-- Substring containment on code-point sequences: Python's `pat in text`. -/
def containsSeq (pat : List Nat) : List Nat → Bool
  | [] => pat.isEmpty
  | c :: rest => pat.isPrefixOf (c :: rest) || containsSeq pat rest

/-- Python `"M-SEARCH" in data.decode('utf-8', errors='ignore')` (upnp.py line 198). -/
def containsMSearch (data : List Nat) : Bool :=
  containsSeq msearchCodes (utf8DecodeIgnore data)

/-- Code points of a Lean string literal (all template text is ASCII). -/
def strCodes (s : String) : List Nat := s.data.map Char.toNat

/-- UTF-8 encoding of one code point (Python `str.encode('utf-8')`, per char). -/
def utf8EncodeChar (c : Nat) : List Nat :=
  if c < 128 then [c]
  else if c < 2048 then [192 + c / 64, 128 + c % 64]
  else if c < 65536 then [224 + c / 4096, 128 + c / 64 % 64, 128 + c % 64]
  else [240 + c / 262144, 128 + c / 4096 % 64, 128 + c / 64 % 64, 128 + c % 64]

/-- UTF-8 encoding of a sequence of code points. -/
def utf8EncodeCodes (l : List Nat) : List Nat := (l.map utf8EncodeChar).flatten

/-- Python `str.replace("\n", "\r\n")` at the code-point level (upnp.py line 144). -/
def replaceLF : List Nat → List Nat
  | [] => []
  | 10 :: rest => 13 :: 10 :: replaceLF rest
  | c :: rest => c :: replaceLF rest

/-- The constructor arguments of `UPNPResponderThread.__init__` (upnp.py
lines 121-128). `host_ip_addr`, `listen_port` and `upnp_bind_multicast` are
stored on the instance; `advertise_ip`/`advertise_port` are consumed by the
response template. -/
structure ResponderConfig where
  host_ip_addr : String
  listen_port : Nat
  upnp_bind_multicast : Bool
  advertise_ip : String
  advertise_port : Nat

/-- The tail of the SSDP response template after the advertise port
(upnp.py lines 135-141); ends with two newlines, as required by the SSDP
spec per the source comment. -/
def respTemplateTail : String :=
  "/description.xml\nSERVER: FreeRTOS/6.0.5, UPnP/1.0, IpBridge/0.1\nhue-bridgeid: 1234\nST: urn:schemas-upnp-org:device:basic:1\nUSN: uuid:Socket-1_0-221438K0100073::urn:schemas-upnp-org:device:basic:1\n\n"

/-- `resp_template.format(advertise_ip, advertise_port)` (upnp.py lines
132-144): the fixed template with the advertise address and port spliced in,
still with bare LF line endings. -/
def formattedCodes (advertise_ip : String) (advertise_port : Nat) : List Nat :=
  strCodes "HTTP/1.1 200 OK\nCACHE-CONTROL: max-age=60\nEXT:\nLOCATION: http://"
    ++ strCodes advertise_ip ++ strCodes ":" ++ strCodes (toString advertise_port)
    ++ strCodes respTemplateTail

/-- `self.upnp_response` (upnp.py lines 143-145): the formatted template with
every LF turned into CRLF, encoded as UTF-8 bytes. -/
def upnp_response (cfg : ResponderConfig) : List Nat :=
  utf8EncodeCodes (replaceLF (formattedCodes cfg.advertise_ip cfg.advertise_port))

/-- The sender address of a datagram, and the target of a reply: (ip, port). -/
structure Addr where
  ip : String
  port : Nat
deriving DecidableEq

/-- A reply transmission: payload bytes and destination address
(`resp_socket.sendto(self.upnp_response, addr)`, upnp.py line 203). -/
abbrev Send := List Nat × Addr

/-- The match-and-reply step of the loop body (upnp.py lines 198-204):
if the decoded datagram contains "M-SEARCH", exactly one reply carrying
`self.upnp_response` is sent to the datagram's source address; otherwise
nothing is sent. -/
def handleDatagram (resp : List Nat) (data : List Nat) (addr : Addr) : List Send :=
  if containsMSearch data then [(resp, addr)] else []

/-- What one iteration of the `while True` loop observes: the outcome of the
2-second `select.select` / `recvfrom` (upnp.py lines 178-196). `readable`
carries the full datagram payload as delivered by the network; `recvfrom(1024)`
reads at most its first 1024 bytes. -/
inductive SelectResult where
  | timeout
  | readable (payload : List Nat) (addr : Addr)
  | sockError
deriving DecidableEq

/-- One iteration's inputs: the value of `self._interrupted` read at the top
of the loop (upnp.py line 173), the select/recv outcome, and the value of
`self._interrupted` read inside the `except socket.error` branch
(upnp.py line 188; only reached when the outcome is a socket error). -/
structure IterInput where
  intrAtTop : Bool
  event : SelectResult
  intrAtError : Bool
deriving DecidableEq

/-- Result of running the loop against a finite list of iteration inputs:
either the loop returned (`exited`, recording the replies sent and whether
`clean_socket_close` ran on the listening socket), or it consumed all inputs
and is still looping (`running`, recording the replies sent so far). -/
inductive LoopOutcome where
  | exited (sent : List Send) (socketClosed : Bool)
  | running (sent : List Send)
deriving DecidableEq

/-- Prepend earlier replies to a loop outcome's reply list. -/
def outcomePrepend (s : List Send) : LoopOutcome → LoopOutcome
  | .exited t c => .exited (s ++ t) c
  | .running t => .running (s ++ t)

/-- The `while True` loop of `UPNPResponderThread.run` (upnp.py lines
172-204), given the precomputed reply bytes and the per-iteration
observations. Both return paths (interrupt observed at the top of the loop,
line 173-175, or inside the socket-error branch, lines 188-190) call
`clean_socket_close` on the listening socket before returning. -/
def runLoop (resp : List Nat) : List IterInput → LoopOutcome
  | [] => .running []
  | it :: rest =>
    if it.intrAtTop then .exited [] true
    else
      match it.event with
      | .timeout => runLoop resp rest
      | .sockError =>
        if it.intrAtError then .exited [] true
        else runLoop resp rest
      | .readable payload addr =>
        outcomePrepend (handleDatagram resp (payload.take 1024) addr) (runLoop resp rest)

/-- The replies sent according to a loop outcome. -/
def outcomeSends : LoopOutcome → List Send
  | .exited s _ => s
  | .running s => s

/-- Whether the loop is still running (has not returned). -/
def isRunning : LoopOutcome → Bool
  | .exited _ _ => false
  | .running _ => true

/-- An iteration observes the cancellation flag when `_interrupted` reads
true at the top-of-loop check, or at the check inside the socket-error
branch (the only two places the loop can return from). -/
def observesInterrupt (it : IterInput) : Bool :=
  it.intrAtTop ||
    (match it.event with
     | .sockError => it.intrAtError
     | _ => false)

/-- The replies one non-exiting iteration produces. -/
def iterSends (resp : List Nat) (it : IterInput) : List Send :=
  if it.intrAtTop then []
  else
    match it.event with
    | .readable payload addr => handleDatagram resp (payload.take 1024) addr
    | _ => []

/-- Socket initialization of `run` (upnp.py lines 150-170): a sequence of
fallible steps (socket creation, the setsockopt calls including the multicast
group join, and the bind) executed in order with no exception handler, so the
first failure propagates. Each step is `.ok ()` or `.error msg`. -/
def runInit : List (Except String Unit) → Except String Unit
  | [] => .ok ()
  | .ok _ :: rest => runInit rest
  | .error e :: _ => .error e

/-- `UPNPResponderThread.run` (upnp.py lines 147-204): initialization runs
before the listening loop and is not wrapped in any try block, so an
initialization failure propagates out of `run` (to the threading framework,
i.e. the supervisor) and the loop is never entered. -/
def runResponder (cfg : ResponderConfig) (initSteps : List (Except String Unit))
    (trace : List IterInput) : Except String LoopOutcome :=
  match runInit initSteps with
  | .error e => .error e
  | .ok _ => .ok (runLoop (upnp_response cfg) trace)

/-- The address the listening socket is bound to (upnp.py lines 167-170):
wildcard or `host_ip_addr` depending on `upnp_bind_multicast`, always on
port 1900. -/
def bindTarget (cfg : ResponderConfig) : String × Nat :=
  if cfg.upnp_bind_multicast then ("", 1900) else (cfg.host_ip_addr, 1900)

/-- The `_interrupted` flag surface of the thread object. -/
structure ResponderThread where
  interrupted : Bool

/-- The flag assignment performed by `UPNPResponderThread.stop`
(upnp.py line 209) before joining the thread. -/
def stopFlag (t : ResponderThread) : ResponderThread := { t with interrupted := true }

/-- The match-and-reply step with the send modeled as fallible
(upnp.py lines 200-204): `resp_socket = socket(...)`, `sendto`, `close` in
straight line with no try/finally. On success the socket is closed (second
component 0 counts sockets left open); if `sendto` raises, `close` is never
reached, the socket leaks (count 1) and the exception propagates. -/
def handleDatagramFallible (resp : List Nat) (data : List Nat) (addr : Addr)
    (sendResult : Except String Unit) : Except (String × Nat) (List Send × Nat) :=
  if containsMSearch data then
    match sendResult with
    | .ok _ => .ok ([(resp, addr)], 0)
    | .error e => .error (e, 1)
  else .ok ([], 0)

/-- Count of reply sockets left open when the handling step exits
(normally or by a propagating exception). -/
def openSockets : Except (String × Nat) (List Send × Nat) → Nat
  | .error (_, n) => n
  | .ok (_, n) => n

/-- Whether an initialization step succeeded. -/
def isOkE : Except String Unit → Bool
  | .ok _ => true
  | .error _ => false

/-- Helper for `noBareLF`: scan with the previous byte; a byte 10 (LF) is
admissible only right after a byte 13 (CR). -/
def noBareLFAux (prev : Nat) : List Nat → Bool
  | [] => true
  | c :: rest => (c != 10 || prev == 13) && noBareLFAux c rest

/-- No bare LF: every LF byte in the sequence is immediately preceded by CR. -/
def noBareLF (l : List Nat) : Bool := noBareLFAux 0 l

/-- One iteration's inputs for the loop model that also tracks the outcome of
the reply send: as `IterInput`, plus what `resp_socket.sendto` would do if
this iteration sends a reply (upnp.py line 203; the send block at lines
200-204 lies outside the try, so a raising send is uncaught). -/
structure IterInputE where
  intrAtTop : Bool
  event : SelectResult
  intrAtError : Bool
  sendResult : Except String Unit

/-- Result of running the loop with fallible sends: `exited` (returned after
`clean_socket_close`), `running` (inputs exhausted, still looping), or
`crashed` (an exception from the reply-send block propagated out of `run`,
so `clean_socket_close` never ran and the listening socket is left open). -/
inductive LoopOutcomeE where
  | exited (sent : List Send) (socketClosed : Bool)
  | running (sent : List Send)
  | crashed (sent : List Send) (error : String)
deriving DecidableEq

/-- Prepend earlier replies to a fallible-send loop outcome. -/
def outcomePrependE (s : List Send) : LoopOutcomeE → LoopOutcomeE
  | .exited t c => .exited (s ++ t) c
  | .running t => .running (s ++ t)
  | .crashed t e => .crashed (s ++ t) e

/-- The `while True` loop of `UPNPResponderThread.run` (upnp.py lines
172-204) with the reply send modeled as fallible. Identical to `runLoop`
except in the handling step: the open/send/close at lines 200-204 is outside
the try, so when the send raises, the exception propagates out of `run` —
the loop terminates without observing `_interrupted` and without closing
the listening socket. -/
def runLoopE (resp : List Nat) : List IterInputE → LoopOutcomeE
  | [] => .running []
  | it :: rest =>
    if it.intrAtTop then .exited [] true
    else
      match it.event with
      | .timeout => runLoopE resp rest
      | .sockError =>
        if it.intrAtError then .exited [] true
        else runLoopE resp rest
      | .readable payload addr =>
        match handleDatagramFallible resp (payload.take 1024) addr it.sendResult with
        | .ok (sends, _) => outcomePrependE sends (runLoopE resp rest)
        | .error (e, _) => .crashed [] e

/-- Whether the fallible-send loop is still running. -/
def isRunningE : LoopOutcomeE → Bool
  | .running _ => true
  | _ => false

/-- Whether the listening socket was closed when the loop left its
running state (`clean_socket_close` runs on both `return` paths but not
when an exception propagates; a still-running loop has it open). -/
def listenClosedE : LoopOutcomeE → Bool
  | .exited _ c => c
  | .running _ => false
  | .crashed _ _ => false

/-- Flag observation for `IterInputE`: `_interrupted` read true at the
top-of-loop check or at the check in the socket-error branch. -/
def observesInterruptE (it : IterInputE) : Bool :=
  it.intrAtTop ||
    (match it.event with
     | .sockError => it.intrAtError
     | _ => false)

/-- Whether this iteration's handling step raises out of the loop: it
receives a datagram whose decoded first 1024 bytes contain "M-SEARCH" and
the sendto for the reply fails. -/
def sendCrashes (it : IterInputE) : Bool :=
  match it.event, it.sendResult with
  | .readable payload _, .error _ => containsMSearch (payload.take 1024)
  | _, _ => false

/-- The replies one non-exiting, non-crashing iteration produces. -/
def iterSendsE (resp : List Nat) (it : IterInputE) : List Send :=
  if it.intrAtTop then []
  else
    match it.event with
    | .readable payload addr => handleDatagram resp (payload.take 1024) addr
    | _ => []

end EmulatedHueUpnp

/-! ## General lemmas about the loop and the reply bytes -/

namespace EmulatedHueUpnp

theorem outcomePrepend_nil (o : LoopOutcome) : outcomePrepend [] o = o := by
  cases o <;> simp [outcomePrepend]

theorem outcomePrepend_outcomePrepend (a b : List Send) (o : LoopOutcome) :
    outcomePrepend a (outcomePrepend b o) = outcomePrepend (a ++ b) o := by
  cases o <;> simp [outcomePrepend]

theorem outcomeSends_outcomePrepend (s : List Send) (o : LoopOutcome) :
    outcomeSends (outcomePrepend s o) = s ++ outcomeSends o := by
  cases o <;> simp [outcomePrepend, outcomeSends]

theorem isRunning_outcomePrepend (s : List Send) (o : LoopOutcome) :
    isRunning (outcomePrepend s o) = isRunning o := by
  cases o <;> simp [outcomePrepend, isRunning]

/-- A loop iteration that does not observe the cancellation flag continues:
it contributes its replies and hands over to the remaining iterations. -/
theorem runLoop_quiet_cons (resp : List Nat) (it : IterInput) (rest : List IterInput)
    (h : observesInterrupt it = false) :
    runLoop resp (it :: rest) = outcomePrepend (iterSends resp it) (runLoop resp rest) := by
  obtain ⟨top, ev, err⟩ := it
  simp only [observesInterrupt, Bool.or_eq_false_iff] at h
  obtain ⟨htop, herr⟩ := h
  cases ev with
  | timeout => simp [runLoop, iterSends, htop, outcomePrepend_nil]
  | sockError => simp_all [runLoop, iterSends, outcomePrepend_nil]
  | readable payload addr => simp [runLoop, iterSends, htop]

/-- A loop iteration that observes the cancellation flag (at the top-of-loop
check or in the socket-error branch) closes the listening socket and returns;
later iterations are never reached. -/
theorem runLoop_observe_head (resp : List Nat) (it : IterInput) (post : List IterInput)
    (h : observesInterrupt it = true) :
    runLoop resp (it :: post) = .exited [] true := by
  obtain ⟨top, ev, err⟩ := it
  cases htop : top with
  | true => simp [runLoop, htop]
  | false =>
    cases ev with
    | timeout => simp [observesInterrupt, htop] at h
    | readable payload addr => simp [observesInterrupt, htop] at h
    | sockError =>
      simp only [observesInterrupt, htop, Bool.false_or] at h
      simp [runLoop, htop, h]

/-- A run of iterations none of which observes the cancellation flag passes
control to the remaining trace, accumulating its replies. -/
theorem runLoop_append_quiet (resp : List Nat) (pre tail : List IterInput)
    (h : pre.all (fun x => !observesInterrupt x) = true) :
    runLoop resp (pre ++ tail)
      = outcomePrepend ((pre.map (iterSends resp)).flatten) (runLoop resp tail) := by
  induction pre with
  | nil => simp [outcomePrepend_nil]
  | cons it pre ih =>
    simp only [List.all_cons, Bool.and_eq_true, Bool.not_eq_true'] at h
    obtain ⟨h1, h2⟩ := h
    rw [List.cons_append, runLoop_quiet_cons resp it _ h1, ih (by simpa using h2),
      outcomePrepend_outcomePrepend]
    simp

/-- Every reply the loop ever sends carries exactly the precomputed bytes. -/
theorem runLoop_sends_eq (resp : List Nat) (trace : List IterInput) :
    (outcomeSends (runLoop resp trace)).all (fun s => s.1 == resp) = true := by
  induction trace with
  | nil => rfl
  | cons it rest ih =>
    obtain ⟨top, ev, err⟩ := it
    cases htop : top with
    | true => simp [runLoop, htop, outcomeSends]
    | false =>
      cases ev with
      | timeout => simpa [runLoop, htop] using ih
      | sockError =>
        cases herr : err with
        | true => simp [runLoop, htop, herr, outcomeSends]
        | false => simpa [runLoop, htop, herr] using ih
      | readable payload addr =>
        simp only [runLoop, htop, Bool.false_eq_true, if_false, outcomeSends_outcomePrepend,
          List.all_append]
        refine Bool.and_eq_true_iff.mpr ⟨?_, ih⟩
        by_cases hm : containsMSearch (payload.take 1024)
        · simp [handleDatagram, hm]
        · simp [handleDatagram, hm]

end EmulatedHueUpnp

namespace EmulatedHueUpnp

theorem replaceLF_cons (c : Nat) (l : List Nat) :
    replaceLF (c :: l) = if c = 10 then 13 :: 10 :: replaceLF l else c :: replaceLF l := by
  by_cases h : c = 10
  · subst h; simp [replaceLF]
  · simp only [h, if_false]
    rw [replaceLF.eq_def]
    split
    · simp_all
    · simp_all
    · simp_all

theorem replaceLF_append (a b : List Nat) :
    replaceLF (a ++ b) = replaceLF a ++ replaceLF b := by
  induction a with
  | nil => simp [replaceLF]
  | cons c a ih =>
    rw [List.cons_append, replaceLF_cons, replaceLF_cons]
    by_cases h : c = 10 <;> simp [h, ih]

theorem utf8EncodeCodes_cons (c : Nat) (l : List Nat) :
    utf8EncodeCodes (c :: l) = utf8EncodeChar c ++ utf8EncodeCodes l := by
  simp [utf8EncodeCodes]

theorem utf8EncodeCodes_append (a b : List Nat) :
    utf8EncodeCodes (a ++ b) = utf8EncodeCodes a ++ utf8EncodeCodes b := by
  simp [utf8EncodeCodes]

/-- The bytes encoding a code point other than LF never include the LF byte. -/
theorem utf8EncodeChar_no10 (c : Nat) (h : c ≠ 10) :
    (utf8EncodeChar c).all (fun b => b != 10) = true := by
  unfold utf8EncodeChar
  split
  · simpa using h
  · split
    · simp; omega
    · split
      · simp; omega
      · simp; omega

theorem noBareLFAux_append_no10 (bs : List Nat) (h : bs.all (fun b => b != 10) = true)
    (tail : List Nat) (htail : ∀ p, noBareLFAux p tail = true) (prev : Nat) :
    noBareLFAux prev (bs ++ tail) = true := by
  induction bs generalizing prev with
  | nil => simpa using htail prev
  | cons b bs ih =>
    simp only [List.all_cons, Bool.and_eq_true] at h
    simp [noBareLFAux, h.1, ih h.2]

/-- After the LF-to-CRLF conversion and UTF-8 encoding, every LF byte is
immediately preceded by a CR byte. -/
theorem noBareLFAux_encode_replaceLF (l : List Nat) (prev : Nat) :
    noBareLFAux prev (utf8EncodeCodes (replaceLF l)) = true := by
  induction l generalizing prev with
  | nil => rfl
  | cons c rest ih =>
    rw [replaceLF_cons]
    by_cases h : c = 10
    · simp only [h, if_true]
      rw [utf8EncodeCodes_cons, utf8EncodeCodes_cons]
      simp [utf8EncodeChar, noBareLFAux, ih]
    · simp only [h, if_false]
      rw [utf8EncodeCodes_cons]
      exact noBareLFAux_append_no10 _ (utf8EncodeChar_no10 c h) _ (fun p => ih p) prev

/-- Initialization steps that all succeed pass control to the following steps. -/
theorem runInit_append_ok (pre tail : List (Except String Unit))
    (h : pre.all isOkE = true) : runInit (pre ++ tail) = runInit tail := by
  induction pre with
  | nil => rfl
  | cons s pre ih =>
    cases s with
    | ok u =>
      simp only [List.all_cons, Bool.and_eq_true] at h
      exact ih h.2
    | error e => simp [isOkE] at h

theorem outcomePrependE_nil (o : LoopOutcomeE) : outcomePrependE [] o = o := by
  cases o <;> simp [outcomePrependE]

theorem isRunningE_outcomePrependE (s : List Send) (o : LoopOutcomeE) :
    isRunningE (outcomePrependE s o) = isRunningE o := by
  cases o <;> simp [outcomePrependE, isRunningE]

theorem outcomePrependE_outcomePrependE (a b : List Send) (o : LoopOutcomeE) :
    outcomePrependE a (outcomePrependE b o) = outcomePrependE (a ++ b) o := by
  cases o <;> simp [outcomePrependE]

/-- A fallible-send loop iteration that neither observes the cancellation
flag nor has its reply send raise continues with the remaining iterations. -/
theorem runLoopE_quiet_cons (resp : List Nat) (it : IterInputE) (rest : List IterInputE)
    (h1 : observesInterruptE it = false) (h2 : sendCrashes it = false) :
    runLoopE resp (it :: rest) = outcomePrependE (iterSendsE resp it) (runLoopE resp rest) := by
  obtain ⟨top, ev, err, send⟩ := it
  simp only [observesInterruptE, Bool.or_eq_false_iff] at h1
  obtain ⟨htop, herr⟩ := h1
  cases ev with
  | timeout => simp [runLoopE, iterSendsE, htop, outcomePrependE_nil]
  | sockError => simp_all [runLoopE, iterSendsE, outcomePrependE_nil]
  | readable payload addr =>
    cases send with
    | ok u =>
      by_cases hm : containsMSearch (payload.take 1024) <;>
        simp [runLoopE, iterSendsE, handleDatagramFallible, handleDatagram, htop, hm]
    | error e =>
      simp only [sendCrashes] at h2
      simp [runLoopE, iterSendsE, handleDatagramFallible, handleDatagram, htop, h2,
        outcomePrependE_nil]

/-- A fallible-send loop iteration that observes the cancellation flag
closes the listening socket and returns. -/
theorem runLoopE_observe_head (resp : List Nat) (it : IterInputE) (post : List IterInputE)
    (h : observesInterruptE it = true) :
    runLoopE resp (it :: post) = .exited [] true := by
  obtain ⟨top, ev, err, send⟩ := it
  cases htop : top with
  | true => simp [runLoopE, htop]
  | false =>
    cases ev with
    | timeout => simp [observesInterruptE, htop] at h
    | readable payload addr => simp [observesInterruptE, htop] at h
    | sockError =>
      simp only [observesInterruptE, htop, Bool.false_or] at h
      simp [runLoopE, htop, h]

/-- Flag-quiet, send-successful iterations pass control to the remaining
trace, accumulating their replies. -/
theorem runLoopE_append_quiet (resp : List Nat) (pre tail : List IterInputE)
    (h : pre.all (fun x => !observesInterruptE x && !sendCrashes x) = true) :
    runLoopE resp (pre ++ tail)
      = outcomePrependE ((pre.map (iterSendsE resp)).flatten) (runLoopE resp tail) := by
  induction pre with
  | nil => simp [outcomePrependE_nil]
  | cons it pre ih =>
    simp only [List.all_cons, Bool.and_eq_true, Bool.not_eq_true'] at h
    obtain ⟨⟨h1, h2⟩, h3⟩ := h
    rw [List.cons_append, runLoopE_quiet_cons resp it _ h1 h2,
      ih (by simpa using h3), outcomePrependE_outcomePrependE]
    simp

end EmulatedHueUpnp

/-! ## Claim theorems -/

namespace EmulatedHueUpnp

/-- C1: a received datagram whose decoded text contains "M-SEARCH" makes the
handling step send exactly one reply, addressed to the datagram's source
address and carrying exactly the precomputed `upnp_response` bytes; a
datagram without that substring triggers zero replies. In the loop, the
handled data is what `recvfrom(1024)` returned and the loop then continues
with the remaining iterations. -/
theorem msearch_reply_exactly_one (cfg : ResponderConfig) (data payload : List Nat)
    (addr : Addr) (ib : Bool) (rest : List IterInput) :
    handleDatagram (upnp_response cfg) data addr
        = (if containsMSearch data then [(upnp_response cfg, addr)] else [])
    ∧ runLoop (upnp_response cfg) (⟨false, .readable payload addr, ib⟩ :: rest)
        = outcomePrepend (handleDatagram (upnp_response cfg) (payload.take 1024) addr)
            (runLoop (upnp_response cfg) rest) := by
  exact ⟨rfl, by simp [runLoop]⟩

/-- C2 counterexample: a received M-SEARCH datagram whose reply send raises
terminates the loop at an iteration that never observes the cancellation
flag, and the listening socket is not closed — `run` exits through the
uncaught exception of the send block (upnp.py lines 200-204, outside the
try), refuting "the loop reaches its terminal state only by observing the
cancellation flag" and "after stop() returns, the listening socket is
closed". -/
theorem uncaught_send_error_counterexample :
    ([(⟨false, .readable msearchCodes ⟨"192.168.1.50", 5353⟩, false,
        .error "Network is unreachable"⟩ : IterInputE)].all
      (fun x => !observesInterruptE x) = true)
    ∧ runLoopE [0] [⟨false, .readable msearchCodes ⟨"192.168.1.50", 5353⟩, false,
        .error "Network is unreachable"⟩]
      = .crashed [] "Network is unreachable"
    ∧ isRunningE (runLoopE [0] [⟨false, .readable msearchCodes ⟨"192.168.1.50", 5353⟩, false,
        .error "Network is unreachable"⟩]) = false
    ∧ listenClosedE (runLoopE [0] [⟨false, .readable msearchCodes ⟨"192.168.1.50", 5353⟩, false,
        .error "Network is unreachable"⟩]) = false :=
  ⟨by decide, by rfl, by rfl, by rfl⟩

/-- C2 amended: `stop` sets the cancellation flag; unless the reply-send
block raises, the loop reaches its terminal state only by observing the flag
(a trace of flag-quiet, send-successful iterations is still running), and
the first iteration that observes it — at the top-of-loop check or in the
socket-error branch — closes the listening socket and returns with exactly
the earlier iterations' replies, processing none of the later datagrams,
whatever they are. When the reply send raises, the loop terminates at that
iteration without observing the flag and without closing the listening
socket. -/
theorem stop_terminates_unless_send_raises (resp : List Nat)
    (pre post trace2 post2 : List IterInputE) (it : IterInputE) (t : ResponderThread)
    (payload : List Nat) (addr : Addr) (ib : Bool) (e : String)
    (hpre : pre.all (fun x => !observesInterruptE x && !sendCrashes x) = true)
    (hit : observesInterruptE it = true)
    (htr : trace2.all (fun x => !observesInterruptE x && !sendCrashes x) = true)
    (hm : containsMSearch (payload.take 1024) = true) :
    runLoopE resp (pre ++ it :: post)
        = .exited ((pre.map (iterSendsE resp)).flatten) true
    ∧ isRunningE (runLoopE resp trace2) = true
    ∧ (stopFlag t).interrupted = true
    ∧ runLoopE resp (⟨false, .readable payload addr, ib, .error e⟩ :: post2)
        = .crashed [] e
    ∧ listenClosedE (.crashed [] e) = false := by
  refine ⟨?_, ?_, rfl, ?_, rfl⟩
  · rw [runLoopE_append_quiet resp pre _ hpre, runLoopE_observe_head resp it post hit]
    simp [outcomePrependE]
  · have h := runLoopE_append_quiet resp trace2 [] htr
    rw [List.append_nil] at h
    rw [h, isRunningE_outcomePrependE]
    rfl
  · simp [runLoopE, handleDatagramFallible, hm]

theorem stop_terminates_unless_send_raises_witness :
    ([(⟨false, .timeout, false, .ok ()⟩ : IterInputE)].all
        (fun x => !observesInterruptE x && !sendCrashes x) = true)
    ∧ observesInterruptE ⟨true, .timeout, false, .ok ()⟩ = true
    ∧ containsMSearch (msearchCodes.take 1024) = true
    ∧ (runLoopE [0] ([⟨false, .timeout, false, .ok ()⟩]
          ++ ⟨true, .timeout, false, .ok ()⟩
            :: [⟨false, .readable msearchCodes ⟨"192.168.1.50", 5353⟩, false, .ok ()⟩])
        = .exited (([(⟨false, .timeout, false, .ok ()⟩ : IterInputE)].map (iterSendsE [0])).flatten) true
      ∧ isRunningE (runLoopE [0] [⟨false, .timeout, false, .ok ()⟩]) = true
      ∧ (stopFlag ⟨false⟩).interrupted = true
      ∧ runLoopE [0] (⟨false, .readable msearchCodes ⟨"192.168.1.50", 5353⟩, false,
            .error "Network is unreachable"⟩ :: [])
          = .crashed [] "Network is unreachable"
      ∧ listenClosedE (.crashed [] "Network is unreachable") = false) :=
  ⟨by decide, by decide, by decide,
    stop_terminates_unless_send_raises [0] [⟨false, .timeout, false, .ok ()⟩]
      [⟨false, .readable msearchCodes ⟨"192.168.1.50", 5353⟩, false, .ok ()⟩]
      [⟨false, .timeout, false, .ok ()⟩] [] ⟨true, .timeout, false, .ok ()⟩ ⟨false⟩
      msearchCodes ⟨"192.168.1.50", 5353⟩ false "Network is unreachable"
      (by decide) (by decide) (by decide) (by decide)⟩

/-- C3 counterexample: the payload "M-SEARCH" followed by byte 0xFF is not
valid UTF-8, yet the responder sends one reply for it (the ignoring decode
drops the bad byte and the remaining text contains "M-SEARCH"), refuting
"zero replies for every payload that is not valid UTF-8 text". -/
theorem invalid_utf8_counterexample :
    isValidUtf8 [77, 45, 83, 69, 65, 82, 67, 72, 255] = false
    ∧ handleDatagram
        (upnp_response ⟨"192.168.1.2", 1900, true, "10.0.0.5", 8300⟩)
        [77, 45, 83, 69, 65, 82, 67, 72, 255] ⟨"192.168.1.50", 5353⟩
      = [(upnp_response ⟨"192.168.1.2", 1900, true, "10.0.0.5", 8300⟩,
          ⟨"192.168.1.50", 5353⟩)] := by
  constructor
  · decide
  · have h : containsMSearch [77, 45, 83, 69, 65, 82, 67, 72, 255] = true := by decide
    simp [handleDatagram, h]

/-- C3 amended: decoding never fails (undecodable bytes are dropped), so a
datagram whose payload is not valid UTF-8 never terminates the run loop, and
it triggers zero replies when its decoded text does not contain "M-SEARCH". -/
theorem invalid_utf8_no_reply (cfg : ResponderConfig) (data : List Nat) (addr : Addr)
    (ib : Bool) (rest : List IterInput)
    (hinv : isValidUtf8 data = false) (hnom : containsMSearch data = false) :
    handleDatagram (upnp_response cfg) data addr = []
    ∧ isRunning (runLoop (upnp_response cfg) [⟨false, .readable data addr, ib⟩]) = true
    ∧ runLoop (upnp_response cfg) (⟨false, .readable data addr, ib⟩ :: rest)
        = outcomePrepend (handleDatagram (upnp_response cfg) (data.take 1024) addr)
            (runLoop (upnp_response cfg) rest) := by
  refine ⟨by simp [handleDatagram, hnom], ?_, by simp [runLoop]⟩
  rw [runLoop_quiet_cons _ _ _ (by simp [observesInterrupt]), isRunning_outcomePrepend]
  rfl

theorem invalid_utf8_no_reply_witness :
    isValidUtf8 [255] = false
    ∧ containsMSearch [255] = false
    ∧ (handleDatagram (upnp_response ⟨"192.168.1.2", 1900, true, "10.0.0.5", 8300⟩)
          [255] ⟨"192.168.1.50", 5353⟩ = []
      ∧ isRunning (runLoop (upnp_response ⟨"192.168.1.2", 1900, true, "10.0.0.5", 8300⟩)
          [⟨false, .readable [255] ⟨"192.168.1.50", 5353⟩, false⟩]) = true
      ∧ runLoop (upnp_response ⟨"192.168.1.2", 1900, true, "10.0.0.5", 8300⟩)
          (⟨false, .readable [255] ⟨"192.168.1.50", 5353⟩, false⟩ :: [])
        = outcomePrepend
            (handleDatagram (upnp_response ⟨"192.168.1.2", 1900, true, "10.0.0.5", 8300⟩)
              (([255] : List Nat).take 1024) ⟨"192.168.1.50", 5353⟩)
            (runLoop (upnp_response ⟨"192.168.1.2", 1900, true, "10.0.0.5", 8300⟩) [])) :=
  ⟨by decide, by decide,
    invalid_utf8_no_reply ⟨"192.168.1.2", 1900, true, "10.0.0.5", 8300⟩ [255]
      ⟨"192.168.1.50", 5353⟩ false [] (by decide) (by decide)⟩

/-- C4: the precomputed reply depends only on the advertise address and port —
two configurations agreeing on those yield byte-identical `upnp_response`
values — and every reply the loop ever sends carries exactly those bytes. -/
theorem response_deterministic (cfg1 cfg2 : ResponderConfig) (trace : List IterInput)
    (h1 : cfg1.advertise_ip = cfg2.advertise_ip)
    (h2 : cfg1.advertise_port = cfg2.advertise_port) :
    upnp_response cfg1 = upnp_response cfg2
    ∧ (outcomeSends (runLoop (upnp_response cfg1) trace)).all
        (fun s => s.1 == upnp_response cfg1) = true :=
  ⟨by simp [upnp_response, h1, h2], runLoop_sends_eq _ _⟩

theorem response_deterministic_witness :
    (ResponderConfig.advertise_ip ⟨"192.168.1.2", 80, true, "10.0.0.5", 8300⟩
        = ResponderConfig.advertise_ip ⟨"192.168.1.3", 8080, false, "10.0.0.5", 8300⟩)
    ∧ (ResponderConfig.advertise_port ⟨"192.168.1.2", 80, true, "10.0.0.5", 8300⟩
        = ResponderConfig.advertise_port ⟨"192.168.1.3", 8080, false, "10.0.0.5", 8300⟩)
    ∧ (upnp_response ⟨"192.168.1.2", 80, true, "10.0.0.5", 8300⟩
        = upnp_response ⟨"192.168.1.3", 8080, false, "10.0.0.5", 8300⟩
      ∧ (outcomeSends (runLoop (upnp_response ⟨"192.168.1.2", 80, true, "10.0.0.5", 8300⟩)
            [⟨false, .readable msearchCodes ⟨"192.168.1.50", 5353⟩, false⟩])).all
          (fun s => s.1 == upnp_response ⟨"192.168.1.2", 80, true, "10.0.0.5", 8300⟩) = true) :=
  ⟨rfl, rfl,
    response_deterministic ⟨"192.168.1.2", 80, true, "10.0.0.5", 8300⟩
      ⟨"192.168.1.3", 8080, false, "10.0.0.5", 8300⟩
      [⟨false, .readable msearchCodes ⟨"192.168.1.50", 5353⟩, false⟩] rfl rfl⟩

/-- C5: the precomputed reply has no bare LF (every LF byte is preceded by a
CR byte), ends with a blank line (suffix CRLF CRLF), and for advertise
address "10.0.0.5" and port 8300 contains the literal CRLF-delimited line
"LOCATION: http://10.0.0.5:8300/description.xml". -/
theorem response_crlf_template (cfg : ResponderConfig) :
    noBareLF (upnp_response cfg) = true
    ∧ [13, 10, 13, 10] <:+ upnp_response cfg
    ∧ containsSeq (strCodes "\r\nLOCATION: http://10.0.0.5:8300/description.xml\r\n")
        (upnp_response ⟨"192.168.1.2", 1900, true, "10.0.0.5", 8300⟩) = true := by
  refine ⟨noBareLFAux_encode_replaceLF _ 0, ?_, by decide⟩
  have hdecomp : formattedCodes cfg.advertise_ip cfg.advertise_port
      = (strCodes "HTTP/1.1 200 OK\nCACHE-CONTROL: max-age=60\nEXT:\nLOCATION: http://"
          ++ strCodes cfg.advertise_ip ++ strCodes ":"
          ++ strCodes (toString cfg.advertise_port))
        ++ strCodes respTemplateTail := by
    simp [formattedCodes, List.append_assoc]
  have hsuf : [13, 10, 13, 10] <:+ utf8EncodeCodes (replaceLF (strCodes respTemplateTail)) := by
    decide
  calc [13, 10, 13, 10]
      <:+ utf8EncodeCodes (replaceLF (strCodes respTemplateTail)) := hsuf
    _ <:+ upnp_response cfg := by
        rw [upnp_response, hdecomp, replaceLF_append, utf8EncodeCodes_append]
        exact List.suffix_append _ _

/-- C6: a socket error while the cancellation flag is unset neither
terminates the loop nor produces a reply: the loop behaves exactly as after
an empty poll (a select timeout) and continues with the remaining
iterations. -/
theorem transient_socket_error_continues (resp : List Nat) (rest : List IterInput) :
    runLoop resp (⟨false, .sockError, false⟩ :: rest) = runLoop resp rest
    ∧ runLoop resp (⟨false, .sockError, false⟩ :: rest)
        = runLoop resp (⟨false, .timeout, false⟩ :: rest) := by
  constructor <;> simp [runLoop]

/-- C7: if any initialization step fails (the first failing step raising
error `e` after only successful steps), `run` propagates that error and the
listening loop is never entered, whatever datagrams would have arrived. -/
theorem init_failure_propagates (cfg : ResponderConfig) (pre suf : List (Except String Unit))
    (e : String) (trace : List IterInput) (hpre : pre.all isOkE = true) :
    runResponder cfg (pre ++ .error e :: suf) trace = .error e := by
  simp [runResponder, runInit_append_ok pre _ hpre, runInit]

theorem init_failure_propagates_witness :
    ([(.ok () : Except String Unit)].all isOkE = true)
    ∧ runResponder ⟨"192.168.1.2", 1900, true, "10.0.0.5", 8300⟩
        ([.ok ()] ++ .error "Address already in use" :: [])
        [⟨false, .readable msearchCodes ⟨"192.168.1.50", 5353⟩, false⟩]
      = .error "Address already in use" :=
  ⟨by decide,
    init_failure_propagates ⟨"192.168.1.2", 1900, true, "10.0.0.5", 8300⟩
      [.ok ()] [] "Address already in use"
      [⟨false, .readable msearchCodes ⟨"192.168.1.50", 5353⟩, false⟩] (by decide)⟩

/-- C8 counterexample: when the send itself raises, the straight-line
open/send/close of the handling step never reaches `close`, so the reply
socket is left open (count 1) on that exit path, refuting "closed on every
exit path". -/
theorem reply_socket_leak_counterexample :
    openSockets (handleDatagramFallible
        (upnp_response ⟨"192.168.1.2", 1900, true, "10.0.0.5", 8300⟩)
        msearchCodes ⟨"192.168.1.50", 5353⟩ (.error "Network is unreachable")) = 1 := by
  rfl

/-- C8 amended: the reply socket is opened and used for exactly one send and
is closed when the send succeeds (and no socket is opened at all for a
non-matching datagram), but when the send raises, the error propagates and
the socket is not closed on that path. -/
theorem reply_socket_scoped (resp data : List Nat) (addr : Addr) (e : String) :
    handleDatagramFallible resp data addr (.ok ())
        = .ok (if containsMSearch data then [(resp, addr)] else [], 0)
    ∧ handleDatagramFallible resp data addr (.error e)
        = (if containsMSearch data then .error (e, 1) else .ok ([], 0)) := by
  constructor <;> by_cases h : containsMSearch data <;> simp [handleDatagramFallible, h]

/-- C9: the listening socket is bound to port 1900 — to the wildcard address
or to `host_ip_addr` according to `upnp_bind_multicast` — and the bound
address does not depend on the stored `listen_port`, which `run` never
reads. -/
theorem bind_port_always_1900 (cfg : ResponderConfig) (p : Nat) :
    (bindTarget cfg).2 = 1900
    ∧ bindTarget cfg = ((if cfg.upnp_bind_multicast then "" else cfg.host_ip_addr), 1900)
    ∧ bindTarget { cfg with listen_port := p } = bindTarget cfg := by
  unfold bindTarget
  by_cases h : cfg.upnp_bind_multicast <;> simp [h]

/-- C10: each receive hands at most the first 1024 bytes of the datagram to
the "M-SEARCH" check, so a datagram whose decoded text contains "M-SEARCH"
only beyond the first 1024 bytes triggers zero replies: the handling step
sends nothing and the loop proceeds exactly as if the iteration had not
received it. -/
theorem recv_truncates_at_1024 (resp data : List Nat) (addr : Addr) (ib : Bool)
    (rest : List IterInput)
    (hfull : containsMSearch data = true)
    (htrunc : containsMSearch (data.take 1024) = false) :
    handleDatagram resp (data.take 1024) addr = []
    ∧ runLoop resp (⟨false, .readable data addr, ib⟩ :: rest) = runLoop resp rest
    ∧ (data.take 1024).length ≤ 1024 := by
  refine ⟨by simp [handleDatagram, htrunc], ?_, by simp [List.length_take]⟩
  simp [runLoop, handleDatagram, htrunc, outcomePrepend_nil]

theorem recv_truncates_at_1024_witness :
    containsMSearch (List.replicate 1024 32 ++ msearchCodes) = true
    ∧ containsMSearch ((List.replicate 1024 32 ++ msearchCodes).take 1024) = false
    ∧ (handleDatagram [0] ((List.replicate 1024 32 ++ msearchCodes).take 1024)
          ⟨"192.168.1.50", 5353⟩ = []
      ∧ runLoop [0] [⟨false, .readable (List.replicate 1024 32 ++ msearchCodes)
          ⟨"192.168.1.50", 5353⟩, false⟩] = runLoop [0] []
      ∧ (((List.replicate 1024 32 ++ msearchCodes).take 1024)).length ≤ 1024) :=
  ⟨by decide, by decide,
    recv_truncates_at_1024 [0] (List.replicate 1024 32 ++ msearchCodes)
      ⟨"192.168.1.50", 5353⟩ false [] (by decide) (by decide)⟩

end EmulatedHueUpnp
